import Mathlib

/-!
Verification of the GitHub-to-PDF server (src/server.js).

The file shallowly embeds the request pipeline of the server: the GitHub
API fetch helpers, the README sanitization pipeline, the view-model
builder, and the two HTTP handlers for the preview and PDF routes.
External effects (the GitHub API, the markdown renderer, the template
engine, the headless browser) are modelled as explicit environment
records carrying each possible outcome, so every function of the
embedding is a total, executable Lean function over those environments.
-/

namespace GhPdf

/-! ## HTML model for the README pipeline

The markdown renderer (marked) and the sanitizer (sanitize-html) are
external libraries; the HTML they exchange is modelled as a forest of
element and text nodes.  The sanitizer configuration (allow-lists and
the anchor transform) is transcribed from the sanitizeHtml call in
fetchUserReadmeHtml of src/server.js.
-/

mutual
inductive HNode : Type where
  | text : String → HNode
  | elem : String → List (String × String) → HForest → HNode
inductive HForest : Type where
  | nil : HForest
  | cons : HNode → HForest → HForest
end

/-- Modelled from the spec: sanitize-html drops these tags together with
their whole contents (the library is not part of this repository; §4.2
of the spec says the sanitizer "strips scripts/styles"). -/
def nonTextTags : List String := ["script", "style", "textarea", "option"]

/-- Modelled from the spec: the sanitize-html default tag allow-list (a
"safe subset" of text-formatting tags per §4.2), concatenated with the
extra tags the source passes in its allowedTags option. -/
def allowedTags : List String :=
  ["address", "article", "aside", "footer", "header", "h4", "h5", "h6",
   "hgroup", "main", "nav", "section", "blockquote", "dd", "div", "dl", "dt",
   "figcaption", "figure", "hr", "li", "ol", "p", "pre", "ul", "a", "abbr",
   "b", "bdi", "bdo", "br", "cite", "code", "data", "dfn", "em", "i", "kbd",
   "mark", "q", "rb", "rp", "rt", "rtc", "ruby", "s", "samp", "small", "span",
   "strong", "sub", "sup", "time", "u", "var", "wbr"] ++
  ["img", "h1", "h2", "h3", "details", "summary"]

/-- The allowedAttributes option of the sanitizeHtml call: href, name,
target and rel on anchors; src, alt, title, width and height on images;
id and class on every tag. -/
def allowedAttrKey (tag : String) (k : String) : Bool :=
  (k == "id" || k == "class") ||
  (tag == "a" && (k == "href" || k == "name" || k == "target" || k == "rel")) ||
  (tag == "img" && (k == "src" || k == "alt" || k == "title" || k == "width" || k == "height"))

def filterAttrs (tag : String) (attrs : List (String × String)) : List (String × String) :=
  attrs.filter (fun p => allowedAttrKey tag p.1)

/-- The transformTags option: simpleTransform with merge, forcing
target to _blank and rel to noopener noreferrer on every anchor,
overriding any values the input carried. -/
def transformAnchor (attrs : List (String × String)) : List (String × String) :=
  ("target", "_blank") :: ("rel", "noopener noreferrer") ::
    attrs.filter (fun p => !(p.1 == "target" || p.1 == "rel"))

def applyTransforms (tag : String) (attrs : List (String × String)) : List (String × String) :=
  if tag == "a" then transformAnchor attrs else attrs

def HForest.append : HForest → HForest → HForest
  | .nil, g => g
  | .cons n f, g => .cons n (f.append g)

mutual
/-- Modelled from the spec: the recursive walk of sanitize-html (the
library is not part of this repository).  Tags in nonTextTags are
dropped with their contents; tags outside the allow-list are dropped
but their sanitized children are kept; allowed tags keep only the
allowed attributes, after the anchor transform has run. -/
def sanitizeNode : HNode → HForest
  | .text s => .cons (.text s) .nil
  | .elem tag attrs kids =>
    if tag ∈ nonTextTags then .nil
    else if tag ∈ allowedTags then
      .cons (.elem tag (filterAttrs tag (applyTransforms tag attrs)) (sanitizeForest kids)) .nil
    else sanitizeForest kids
def sanitizeForest : HForest → HForest
  | .nil => .nil
  | .cons n f => (sanitizeNode n).append (sanitizeForest f)
end

mutual
/-- Deep check that a node subtree holds no script element. -/
def scriptFreeN : HNode → Bool
  | .text _ => true
  | .elem tag _ kids => (!(tag == "script")) && scriptFreeF kids
def scriptFreeF : HForest → Bool
  | .nil => true
  | .cons n f => scriptFreeN n && scriptFreeF f
end

/-- An anchor attribute list enforcing the new-context, no-opener
policy: target is _blank and rel is noopener noreferrer. -/
def anchorOk (attrs : List (String × String)) : Bool :=
  (List.lookup "target" attrs == some "_blank") &&
  (List.lookup "rel" attrs == some "noopener noreferrer")

mutual
/-- Deep check that every anchor element satisfies anchorOk. -/
def anchorsOkN : HNode → Bool
  | .text _ => true
  | .elem tag attrs kids => (if tag == "a" then anchorOk attrs else true) && anchorsOkF kids
def anchorsOkF : HForest → Bool
  | .nil => true
  | .cons n f => anchorsOkN n && anchorsOkF f
end

def escapeHtml (s : String) : String :=
  ((s.replace "&" "&amp;").replace "<" "&lt;").replace ">" "&gt;"

def renderAttrs (attrs : List (String × String)) : String :=
  attrs.foldl (fun acc p => ((((acc ++ " ") ++ p.1) ++ "=\"") ++ p.2) ++ "\"") ""

mutual
/-- Serialization of a node forest back to an HTML string. -/
def renderNode : HNode → String
  | .text s => escapeHtml s
  | .elem tag attrs kids =>
    ((((("<" ++ tag) ++ renderAttrs attrs) ++ ">") ++ renderForest kids) ++ "</") ++ (tag ++ ">")
def renderForest : HForest → String
  | .nil => ""
  | .cons n f => renderNode n ++ renderForest f
end

/-! ## README fetch (fetchUserReadmeHtml) -/

/-- Outcome of the readme metadata request inside fetchUserReadmeHtml:
the fetch can throw, return a non-ok status, fail to parse as JSON,
return a body without a content field, or return base64 content. -/
inductive ReadmeFetch : Type where
  | netErr : ReadmeFetch
  | httpErr : Nat → ReadmeFetch
  | jsonErr : ReadmeFetch
  | okNoContent : ReadmeFetch
  | okContent : String → ReadmeFetch

/-- Environment of one fetchUserReadmeHtml call: the request outcome,
whether the decode and markdown steps run without throwing, and the
node forest the markdown renderer produces for the decoded content
(marked is an external library, so its output is an input here). -/
structure ReadmeEnv : Type where
  fetch : ReadmeFetch
  parseOk : Bool
  rawHtml : HForest

/-- fetchUserReadmeHtml of src/server.js: every failure branch (the
early returns and the surrounding catch) yields the empty string; the
success branch returns the sanitized render of the markdown HTML. -/
def fetchUserReadmeHtml (env : ReadmeEnv) : String :=
  match env.fetch with
  | .okContent _ => if env.parseOk then renderForest (sanitizeForest env.rawHtml) else ""
  | _ => ""

/-! ## Data model of the view-model builder -/

/-- The fields of a GitHub repository record that buildTemplateData
reads; description and language may be null in the API response. -/
structure Repo : Type where
  name : String
  description : Option String
  stargazers_count : Nat
  forks_count : Nat
  language : Option String
  html_url : String

/-- The fields of the GitHub user record that buildTemplateData reads;
the optional profile fields may be null in the API response. -/
structure UserData : Type where
  login : String
  name : Option String
  avatar_url : String
  bio : Option String
  company : Option String
  location : Option String
  email : Option String
  blog : Option String
  followers : Nat
  following : Nat
  public_repos : Nat
  created_at : String
  html_url : String

/-- The JavaScript expression x || d for string-or-null x: null and the
empty string are falsy, so both fall back to the default. -/
def jsOrStr (v : Option String) (d : String) : String :=
  match v with
  | none => d
  | some s => if s == "" then d else s

structure TemplateRepo : Type where
  name : String
  description : String
  stars : Nat
  forks : Nat
  language : String
  url : String

structure TemplateUser : Type where
  login : String
  name : String
  avatar : String
  bio : String
  company : String
  location : String
  email : String
  blog : String
  followers : Nat
  following : Nat
  publicRepos : Nat
  createdAt : String
  profileUrl : String

structure TemplateData : Type where
  user : TemplateUser
  repos : List TemplateRepo
  readmeHtml : String
  generatedAt : String

/-- The per-repository projection inside the map over the top repos. -/
def mapRepo (repo : Repo) : TemplateRepo :=
  { name := repo.name,
    description := jsOrStr repo.description "No description",
    stars := repo.stargazers_count,
    forks := repo.forks_count,
    language := jsOrStr repo.language "N/A",
    url := repo.html_url }

/-- Stable insertion step of the star-count sort: the new element goes
after every element with strictly more stars and before the first
element with at most as many, so equal-star elements keep the order in
which they are inserted. -/
def insertRepo (r : Repo) : List Repo → List Repo
  | [] => [r]
  | y :: ys =>
    if r.stargazers_count < y.stargazers_count then y :: insertRepo r ys
    else r :: y :: ys

/-- The comparator sort of buildTemplateData, descending by
stargazers_count.  Array.prototype.sort is required to be stable since
ECMAScript 2019, so the sort is embedded as a stable insertion sort,
which produces the same list as any stable descending sort. -/
def sortByStars : List Repo → List Repo
  | [] => []
  | x :: xs => insertRepo x (sortByStars xs)

/-- Steps 3 of buildTemplateData: sort by stars, take the first ten,
project each repository to its template record. -/
def topRepos (reposData : List Repo) : List TemplateRepo :=
  ((sortByStars reposData).take 10).map mapRepo

/-- Step 5 of buildTemplateData: the user part of the template record,
with the JavaScript || fallbacks of the source.  formatDate stands for
the external toLocaleDateString conversion. -/
def buildTemplateUser (formatDate : String → String) (u : UserData) : TemplateUser :=
  { login := u.login,
    name := jsOrStr u.name u.login,
    avatar := u.avatar_url,
    bio := jsOrStr u.bio "No bio available",
    company := jsOrStr u.company "",
    location := jsOrStr u.location "",
    email := jsOrStr u.email "",
    blog := jsOrStr u.blog "",
    followers := u.followers,
    following := u.following,
    publicRepos := u.public_repos,
    createdAt := formatDate u.created_at,
    profileUrl := u.html_url }

/-! ## GitHub API fetch helper -/

/-- Outcome of one fetch call inside fetchGitHubData: an ok response
with parsed body, a non-ok status, or a thrown exception carrying its
message. -/
inductive ApiResult (α : Type) : Type where
  | ok : α → ApiResult α
  | httpError : Nat → ApiResult α
  | thrown : String → ApiResult α

/-- The errors fetchGitHubData throws, plus a thrown network error. -/
inductive GhError : Type where
  | userNotFound : GhError
  | apiError : Nat → GhError
  | netErr : String → GhError

/-- The message of the corresponding JavaScript Error object; the
handlers branch on this string exactly as the source does. -/
def GhError.message : GhError → String
  | .userNotFound => "User not found"
  | .apiError s => "GitHub API error: " ++ toString s
  | .netErr m => m

/-- fetchGitHubData of src/server.js: a 404 status becomes the
"User not found" error, any other non-ok status becomes the
"GitHub API error" one, and an ok response returns its body. -/
def fetchGitHubData {α : Type} (r : ApiResult α) : Except GhError α :=
  match r with
  | .ok a => .ok a
  | .httpError s => if s = 404 then .error .userNotFound else .error (.apiError s)
  | .thrown m => .error (.netErr m)

/-- One outbound GitHub API request, tagged by which endpoint of the
source issues it and with the parameters interpolated into its URL. -/
inductive GhRequest : Type where
  | userReq : String → GhRequest
  | reposReq : String → Nat → GhRequest
  | readmeReq : String → GhRequest

/-- The URL string the source interpolates for each request. -/
def GhRequest.url : GhRequest → String
  | .userReq u => "https://api.github.com/users/" ++ u
  | .reposReq u p =>
    ((("https://api.github.com/users/" ++ u) ++ "/repos?") ++ ("per_page=" ++ toString p)) ++ "&sort=stars"
  | .readmeReq u => (("https://api.github.com/repos/" ++ u) ++ "/") ++ (u ++ "/readme")

def GhRequest.isRepos : GhRequest → Bool
  | .reposReq _ _ => true
  | _ => false

/-- Environment of one buildTemplateData call: the outcome of the two
API fetches, the readme environment, the external date formatter, and
the generation timestamp. -/
structure GhEnv : Type where
  userApi : ApiResult UserData
  reposApi : ApiResult (List Repo)
  readme : ReadmeEnv
  formatDate : String → String
  nowStr : String

/-- buildTemplateData of src/server.js, returning the result together
with the list of API requests issued, in order.  The user fetch runs
first; a failure there throws before the repos request is made; the
readme request is attempted exactly once on the success path. -/
def buildTemplateData (username : String) (env : GhEnv) :
    Except GhError TemplateData × List GhRequest :=
  match fetchGitHubData env.userApi with
  | .error e => (.error e, [.userReq username])
  | .ok userData =>
    match fetchGitHubData env.reposApi with
    | .error e => (.error e, [.userReq username, .reposReq username 100])
    | .ok reposData =>
      (.ok { user := buildTemplateUser env.formatDate userData,
             repos := topRepos reposData,
             readmeHtml := fetchUserReadmeHtml env.readme,
             generatedAt := env.nowStr },
       [.userReq username, .reposReq username 100, .readmeReq username])

/-! ## HTTP handlers -/

structure HttpRes : Type where
  status : Nat
  body : String
  contentType : Option String
  contentDisposition : Option String

/-- The catch block shared by both handlers: a thrown error whose
message is exactly "User not found" becomes a 404 whose body quotes
the username; any other message becomes a 500 prefixed by the route
specific text. -/
def catchRes (msg : String) (username : String) (pre : String) : HttpRes :=
  if msg = "User not found" then
    { status := 404, body := ("GitHub user \"" ++ username) ++ "\" not found",
      contentType := none, contentDisposition := none }
  else
    { status := 500, body := pre ++ msg, contentType := none, contentDisposition := none }

/-- Environment of one request to the server: the fetch environment
plus one flag per fallible external step of the handlers (the EJS
render, the browser launch, and each browser call after launch), with
the message each failing step would throw. -/
structure ServerEnv : Type where
  gh : GhEnv
  renderOk : Bool
  renderedHtml : String
  renderErrMsg : String
  launchOk : Bool
  launchErrMsg : String
  newPageOk : Bool
  setContentOk : Bool
  emulateOk : Bool
  pdfOk : Bool
  sendOk : Bool
  stepErrMsg : String

/-- The preview route handler: 400 on a missing username, otherwise
build, render and send, with the shared catch block around the body. -/
def previewHandler (username : Option String) (env : ServerEnv) :
    HttpRes × List GhRequest :=
  match username with
  | none =>
    ({ status := 400, body := "Username parameter is required",
       contentType := none, contentDisposition := none }, [])
  | some u =>
    match buildTemplateData u env.gh with
    | (.error e, tr) => (catchRes (GhError.message e) u "Error generating preview: ", tr)
    | (.ok _, tr) =>
      if env.renderOk then
        ({ status := 200, body := env.renderedHtml,
           contentType := none, contentDisposition := none }, tr)
      else (catchRes env.renderErrMsg u "Error generating preview: ", tr)

/-- Result of one request to the PDF route: the response, whether the
browser was launched, whether it was closed, and the API trace. -/
structure PdfOutcome : Type where
  res : HttpRes
  launched : Bool
  closed : Bool
  trace : List GhRequest

/-- The PDF route handler.  The source wraps every browser call after a
successful launch in a try block whose finally closes the browser, so
on both the success path and every failing step after launch the
browser ends closed; a failure before or at launch never creates a
browser.  Step failures after launch reach the shared catch block after
the finally has run. -/
def pdfHandler (username : Option String) (env : ServerEnv) : PdfOutcome :=
  match username with
  | none =>
    { res := { status := 400, body := "Username parameter is required",
               contentType := none, contentDisposition := none },
      launched := false, closed := false, trace := [] }
  | some u =>
    match buildTemplateData u env.gh with
    | (.error e, tr) =>
      { res := catchRes (GhError.message e) u "Error generating PDF: ",
        launched := false, closed := false, trace := tr }
    | (.ok _, tr) =>
      if env.renderOk then
        if env.launchOk then
          if env.newPageOk && env.setContentOk && env.emulateOk && env.pdfOk && env.sendOk then
            { res := { status := 200, body := "",
                       contentType := some "application/pdf",
                       contentDisposition :=
                         some (("attachment; filename=\"" ++ u) ++ "-github-resume.pdf\"") },
              launched := true, closed := true, trace := tr }
          else
            { res := catchRes env.stepErrMsg u "Error generating PDF: ",
              launched := true, closed := true, trace := tr }
        else
          { res := catchRes env.launchErrMsg u "Error generating PDF: ",
            launched := false, closed := false, trace := tr }
      else
        { res := catchRes env.renderErrMsg u "Error generating PDF: ",
          launched := false, closed := false, trace := tr }

/-- A substring occurrence, witnessed by the surrounding pieces. -/
def containsStr (s sub : String) : Prop := ∃ pre post, s = (pre ++ sub) ++ post

/-! ## Concrete inputs used by the witnesses -/

def mkRepo (n : String) (st : Nat) : Repo :=
  { name := n, description := none, stargazers_count := st,
    forks_count := 0, language := none, html_url := "" }

def rlist12 : List Repo :=
  [mkRepo "a" 3, mkRepo "b" 7, mkRepo "c" 7, mkRepo "d" 0, mkRepo "e" 12,
   mkRepo "f" 2, mkRepo "g" 7, mkRepo "h" 1, mkRepo "i" 9, mkRepo "j" 4,
   mkRepo "k" 5, mkRepo "l" 6]

def rlist3 : List Repo := [mkRepo "x" 1, mkRepo "y" 5, mkRepo "z" 5]

def userA : UserData :=
  { login := "alice", name := none, avatar_url := "", bio := none,
    company := none, location := none, email := none, blog := none,
    followers := 0, following := 0, public_repos := 0,
    created_at := "2020-01-01", html_url := "" }

def rEnvNet : ReadmeEnv := { fetch := .netErr, parseOk := true, rawHtml := .nil }

def rEnvHttp : ReadmeEnv := { fetch := .httpErr 404, parseOk := true, rawHtml := .nil }

def rEnvJson : ReadmeEnv := { fetch := .jsonErr, parseOk := true, rawHtml := .nil }

def rEnvNoContent : ReadmeEnv := { fetch := .okNoContent, parseOk := true, rawHtml := .nil }

def rEnvParseFail : ReadmeEnv := { fetch := .okContent "aGk=", parseOk := false, rawHtml := .nil }

def ghEnvOk : GhEnv :=
  { userApi := .ok userA, reposApi := .ok [], readme := rEnvNet,
    formatDate := fun s => s, nowStr := "today" }

def ghEnv404 : GhEnv :=
  { userApi := .httpError 404, reposApi := .ok [], readme := rEnvNet,
    formatDate := fun s => s, nowStr := "today" }

def serverEnvOk : ServerEnv :=
  { gh := ghEnvOk, renderOk := true, renderedHtml := "<html></html>",
    renderErrMsg := "render failed", launchOk := true,
    launchErrMsg := "launch failed", newPageOk := true, setContentOk := true,
    emulateOk := true, pdfOk := true, sendOk := true, stepErrMsg := "step failed" }

def serverEnv404 : ServerEnv :=
  { gh := ghEnv404, renderOk := true, renderedHtml := "<html></html>",
    renderErrMsg := "render failed", launchOk := true,
    launchErrMsg := "launch failed", newPageOk := true, setContentOk := true,
    emulateOk := true, pdfOk := true, sendOk := true, stepErrMsg := "step failed" }

def dataAlice : TemplateData :=
  { user := buildTemplateUser (fun s => s) userA, repos := [],
    readmeHtml := "", generatedAt := "today" }

/-! ## Helper lemmas -/

theorem insertRepo_perm (r : Repo) (l : List Repo) : (insertRepo r l).Perm (r :: l) := by
  induction l with
  | nil => exact List.Perm.refl _
  | cons y ys ih =>
    rw [insertRepo]
    split
    · exact (ih.cons y).trans (List.Perm.swap r y ys)
    · exact List.Perm.refl _

theorem sortByStars_perm (l : List Repo) : (sortByStars l).Perm l := by
  induction l with
  | nil => exact List.Perm.refl _
  | cons x xs ih => exact (insertRepo_perm x (sortByStars xs)).trans (ih.cons x)

theorem insertRepo_sorted (r : Repo) (l : List Repo)
    (h : l.Pairwise (fun a b => b.stargazers_count ≤ a.stargazers_count)) :
    (insertRepo r l).Pairwise (fun a b => b.stargazers_count ≤ a.stargazers_count) := by
  induction l with
  | nil => simp [insertRepo]
  | cons y ys ih =>
    rw [List.pairwise_cons] at h
    obtain ⟨hy, hys⟩ := h
    rw [insertRepo]
    split
    · rename_i hlt
      rw [List.pairwise_cons]
      refine ⟨fun z hz => ?_, ih hys⟩
      rcases List.mem_cons.mp ((insertRepo_perm r ys).mem_iff.mp hz) with hzr | hzys
      · rw [hzr]; exact Nat.le_of_lt hlt
      · exact hy z hzys
    · rename_i hge
      rw [List.pairwise_cons]
      refine ⟨fun z hz => ?_, List.Pairwise.cons hy hys⟩
      rcases List.mem_cons.mp hz with hzy | hzys
      · rw [hzy]; exact Nat.le_of_not_lt hge
      · exact Nat.le_trans (hy z hzys) (Nat.le_of_not_lt hge)

theorem sortByStars_sorted (l : List Repo) :
    (sortByStars l).Pairwise (fun a b => b.stargazers_count ≤ a.stargazers_count) := by
  induction l with
  | nil => simp [sortByStars]
  | cons x xs ih => exact insertRepo_sorted x (sortByStars xs) ih

theorem filter_insertRepo (r : Repo) (l : List Repo) (s : Nat) :
    (insertRepo r l).filter (fun x => x.stargazers_count == s) =
      if r.stargazers_count == s then
        r :: l.filter (fun x => x.stargazers_count == s)
      else l.filter (fun x => x.stargazers_count == s) := by
  induction l with
  | nil => cases h : r.stargazers_count == s <;> simp [insertRepo, List.filter, h]
  | cons y ys ih =>
    rw [insertRepo]
    split
    · rename_i hlt
      by_cases hy : (y.stargazers_count == s) = true
      · have hr : (r.stargazers_count == s) = false := by
          cases hcase : r.stargazers_count == s with
          | false => rfl
          | true =>
            have h1 := eq_of_beq hcase
            have h2 := eq_of_beq hy
            omega
        simp [List.filter_cons, hy, hr, ih]
      · have hy2 : (y.stargazers_count == s) = false := by
          cases hcase : y.stargazers_count == s with
          | false => rfl
          | true => exact absurd hcase hy
        cases hr : r.stargazers_count == s <;>
          simp [List.filter_cons, hy2, hr, ih]
    · cases hr : r.stargazers_count == s <;> simp [List.filter_cons, hr]

theorem mem_topRepos (l : List Repo) (x : TemplateRepo) (h : x ∈ topRepos l) :
    ∃ s, s ∈ l ∧ x = mapRepo s := by
  rw [topRepos] at h
  obtain ⟨s, hs, hx⟩ := List.mem_map.mp h
  exact ⟨s, (sortByStars_perm l).mem_iff.mp (List.mem_of_mem_take hs), hx.symm⟩

theorem fetchGitHubData_ok {α : Type} (r : ApiResult α) (a : α)
    (h : fetchGitHubData r = Except.ok a) : r = ApiResult.ok a := by
  cases r with
  | ok b => simp [fetchGitHubData] at h; rw [h]
  | httpError s =>
    rw [fetchGitHubData] at h
    split at h <;> simp at h
  | thrown m => simp [fetchGitHubData] at h

theorem scriptFreeF_append : (f g : HForest) →
    scriptFreeF (f.append g) = (scriptFreeF f && scriptFreeF g)
  | .nil, g => by simp [HForest.append, scriptFreeF]
  | .cons n f, g => by
    simp [HForest.append, scriptFreeF, scriptFreeF_append f g, Bool.and_assoc]

mutual
theorem scriptFree_sanN : (n : HNode) → scriptFreeF (sanitizeNode n) = true
  | .text s => rfl
  | .elem tag attrs kids => by
    rw [sanitizeNode]
    split
    · rfl
    · split
      · rename_i hnon hall
        have htag : (tag == "script") = false := by
          cases h : tag == "script" with
          | false => rfl
          | true =>
            have h2 := eq_of_beq h
            subst h2
            exact absurd (show "script" ∈ nonTextTags by simp [nonTextTags]) hnon
        simp [scriptFreeF, scriptFreeN, htag, scriptFree_sanF kids]
      · exact scriptFree_sanF kids
theorem scriptFree_sanF : (f : HForest) → scriptFreeF (sanitizeForest f) = true
  | .nil => rfl
  | .cons n f => by
    rw [sanitizeForest, scriptFreeF_append, scriptFree_sanN n, scriptFree_sanF f]
    rfl
end

theorem anchorsOkF_append : (f g : HForest) →
    anchorsOkF (f.append g) = (anchorsOkF f && anchorsOkF g)
  | .nil, g => by simp [HForest.append, anchorsOkF]
  | .cons n f, g => by
    simp [HForest.append, anchorsOkF, anchorsOkF_append f g, Bool.and_assoc]

theorem anchorOk_transform (attrs : List (String × String)) :
    anchorOk (filterAttrs "a" (transformAnchor attrs)) = true := by
  simp [anchorOk, filterAttrs, transformAnchor, List.filter_cons, allowedAttrKey, List.lookup]

mutual
theorem anchors_sanN : (n : HNode) → anchorsOkF (sanitizeNode n) = true
  | .text s => rfl
  | .elem tag attrs kids => by
    rw [sanitizeNode]
    split
    · rfl
    · split
      · by_cases htag : (tag == "a") = true
        · have h2 := eq_of_beq htag
          subst h2
          simp [anchorsOkF, anchorsOkN, applyTransforms, anchorOk_transform,
            anchors_sanF kids]
        · have htag2 : (tag == "a") = false := by
            cases hcase : tag == "a" with
            | false => rfl
            | true => exact absurd hcase htag
          simp [anchorsOkF, anchorsOkN, htag2, anchors_sanF kids]
      · exact anchors_sanF kids
theorem anchors_sanF : (f : HForest) → anchorsOkF (sanitizeForest f) = true
  | .nil => rfl
  | .cons n f => by
    rw [sanitizeForest, anchorsOkF_append, anchors_sanN n, anchors_sanF f]
    rfl
end

theorem fetchUserReadmeHtml_cases (env : ReadmeEnv) :
    fetchUserReadmeHtml env = "" ∨
      fetchUserReadmeHtml env = renderForest (sanitizeForest env.rawHtml) := by
  rw [fetchUserReadmeHtml]
  cases env.fetch with
  | okContent c =>
    by_cases hp : env.parseOk = true
    · right; simp [hp]
    · left; simp [Bool.not_eq_true] at hp; simp [hp]
  | netErr => exact Or.inl rfl
  | httpErr s => exact Or.inl rfl
  | jsonErr => exact Or.inl rfl
  | okNoContent => exact Or.inl rfl

/-! ## Claim theorems -/

/-- C1: For every input markdown string, the HTML returned by the README
fetch-and-sanitize operation (fetchUserReadmeHtml) contains no
executable-script construct: whatever node forest the markdown renderer
produces, the sanitized forest holds no script element at any depth,
and the function returns either the empty string or the render of that
script-free forest. -/
theorem readme_html_no_script_tag (env : ReadmeEnv) :
    scriptFreeF (sanitizeForest env.rawHtml) = true ∧
    (fetchUserReadmeHtml env = "" ∨
      fetchUserReadmeHtml env = renderForest (sanitizeForest env.rawHtml)) :=
  ⟨scriptFree_sanF env.rawHtml, fetchUserReadmeHtml_cases env⟩

/-- C2: In the PDF export stage, once the headless-browser instance has
been launched, it is closed on every exit path of that stage: on the
success path and on every failing step after launch. -/
theorem pdf_browser_closed_on_every_path (username : Option String) (env : ServerEnv)
    (h : (pdfHandler username env).launched = true) :
    (pdfHandler username env).closed = true := by
  cases username with
  | none => simp [pdfHandler] at h
  | some u =>
    cases hb : buildTemplateData u env.gh with
    | mk r tr =>
      cases r with
      | error e => simp [pdfHandler, hb] at h
      | ok d =>
        cases hren : env.renderOk with
        | false => simp [pdfHandler, hb, hren] at h
        | true =>
          cases hl : env.launchOk with
          | false => simp [pdfHandler, hb, hren, hl] at h
          | true =>
            cases hs : env.newPageOk && env.setContentOk && env.emulateOk &&
                env.pdfOk && env.sendOk with
            | false => simp [pdfHandler, hb, hren, hl, hs]
            | true => simp [pdfHandler, hb, hren, hl, hs]

theorem pdf_browser_closed_on_every_path_witness :
    (pdfHandler (some "alice") serverEnvOk).launched = true ∧
    (pdfHandler (some "alice") serverEnvOk).closed = true :=
  ⟨rfl, pdf_browser_closed_on_every_path (some "alice") serverEnvOk rfl⟩

/-- C3: For every raw repository list: with ten or more entries the
builder keeps exactly ten, with fewer it keeps all of them; the output
is sorted descending by star count; and the output is the image of a
sub-permutation of the input, so each entry is derived from a distinct
input entry. -/
theorem topRepos_length_sorted_subset (l : List Repo) :
    (10 ≤ l.length → (topRepos l).length = 10) ∧
    (l.length < 10 → (topRepos l).length = l.length) ∧
    (topRepos l).Pairwise (fun a b => b.stars ≤ a.stars) ∧
    ∃ sel : List Repo, List.Subperm sel l ∧ topRepos l = sel.map mapRepo := by
  have hlen : (topRepos l).length = min 10 (sortByStars l).length := by
    rw [topRepos, List.length_map, List.length_take]
  have hsl : (sortByStars l).length = l.length := (sortByStars_perm l).length_eq
  refine ⟨?_, ?_, ?_, ?_⟩
  · intro h
    rw [hlen, hsl]
    exact Nat.min_eq_left h
  · intro h
    rw [hlen, hsl]
    exact Nat.min_eq_right (Nat.le_of_lt h)
  · have htake := (sortByStars_sorted l).sublist (List.take_sublist 10 (sortByStars l))
    exact htake.map mapRepo (fun a b hab => hab)
  · exact ⟨(sortByStars l).take 10,
      ((List.take_sublist 10 (sortByStars l)).subperm).trans (sortByStars_perm l).subperm,
      rfl⟩

theorem topRepos_length_sorted_subset_witness :
    (topRepos rlist12).length = 10 ∧ (topRepos rlist3).length = rlist3.length :=
  ⟨(topRepos_length_sorted_subset rlist12).1 (by decide),
   (topRepos_length_sorted_subset rlist3).2.1 (by decide)⟩

/-- C4: For every optional profile field absent (none) in the API user
response, the corresponding view-model field equals its placeholder: the
login for the display name, the "No bio available" string for the bio,
and the empty string for company, location, email and blog.  The
view-model fields have type String, so none of them can be null or
absent. -/
theorem profile_placeholder_fields (formatDate : String → String) (u : UserData) :
    (u.name = none → (buildTemplateUser formatDate u).name = u.login) ∧
    (u.bio = none → (buildTemplateUser formatDate u).bio = "No bio available") ∧
    (u.company = none → (buildTemplateUser formatDate u).company = "") ∧
    (u.location = none → (buildTemplateUser formatDate u).location = "") ∧
    (u.email = none → (buildTemplateUser formatDate u).email = "") ∧
    (u.blog = none → (buildTemplateUser formatDate u).blog = "") := by
  refine ⟨fun h => ?_, fun h => ?_, fun h => ?_, fun h => ?_, fun h => ?_, fun h => ?_⟩ <;>
    simp [buildTemplateUser, jsOrStr, h]

theorem profile_placeholder_fields_witness :
    (buildTemplateUser (fun s => s) userA).name = userA.login ∧
    (buildTemplateUser (fun s => s) userA).bio = "No bio available" ∧
    (buildTemplateUser (fun s => s) userA).company = "" ∧
    (buildTemplateUser (fun s => s) userA).location = "" ∧
    (buildTemplateUser (fun s => s) userA).email = "" ∧
    (buildTemplateUser (fun s => s) userA).blog = "" :=
  ⟨(profile_placeholder_fields (fun s => s) userA).1 rfl,
   (profile_placeholder_fields (fun s => s) userA).2.1 rfl,
   (profile_placeholder_fields (fun s => s) userA).2.2.1 rfl,
   (profile_placeholder_fields (fun s => s) userA).2.2.2.1 rfl,
   (profile_placeholder_fields (fun s => s) userA).2.2.2.2.1 rfl,
   (profile_placeholder_fields (fun s => s) userA).2.2.2.2.2 rfl⟩

/-- C5: The README fetch operation never propagates an error: for every
failure mode (thrown fetch, non-ok response, JSON parse failure,
missing content field, decode or markdown failure) it returns the empty
string; its return type is String, so no error channel exists at all. -/
theorem readme_fetch_never_propagates (env : ReadmeEnv) (s : Nat) (c : String) :
    (env.fetch = ReadmeFetch.netErr → fetchUserReadmeHtml env = "") ∧
    (env.fetch = ReadmeFetch.httpErr s → fetchUserReadmeHtml env = "") ∧
    (env.fetch = ReadmeFetch.jsonErr → fetchUserReadmeHtml env = "") ∧
    (env.fetch = ReadmeFetch.okNoContent → fetchUserReadmeHtml env = "") ∧
    (env.fetch = ReadmeFetch.okContent c → env.parseOk = false →
      fetchUserReadmeHtml env = "") := by
  refine ⟨fun h => ?_, fun h => ?_, fun h => ?_, fun h => ?_, fun h hp => ?_⟩
  · simp [fetchUserReadmeHtml, h]
  · simp [fetchUserReadmeHtml, h]
  · simp [fetchUserReadmeHtml, h]
  · simp [fetchUserReadmeHtml, h]
  · simp [fetchUserReadmeHtml, h, hp]

theorem readme_fetch_never_propagates_witness :
    fetchUserReadmeHtml rEnvNet = "" ∧ fetchUserReadmeHtml rEnvHttp = "" ∧
    fetchUserReadmeHtml rEnvJson = "" ∧ fetchUserReadmeHtml rEnvNoContent = "" ∧
    fetchUserReadmeHtml rEnvParseFail = "" :=
  ⟨(readme_fetch_never_propagates rEnvNet 404 "aGk=").1 rfl,
   (readme_fetch_never_propagates rEnvHttp 404 "aGk=").2.1 rfl,
   (readme_fetch_never_propagates rEnvJson 404 "aGk=").2.2.1 rfl,
   (readme_fetch_never_propagates rEnvNoContent 404 "aGk=").2.2.2.1 rfl,
   (readme_fetch_never_propagates rEnvParseFail 404 "aGk=").2.2.2.2 rfl rfl⟩

/-- C6: A request to the preview or PDF route whose query lacks the
username parameter gets a 400 response, and no upstream API request is
issued on that path. -/
theorem missing_username_400_no_upstream (env : ServerEnv) :
    (previewHandler none env).1.status = 400 ∧ (previewHandler none env).2 = [] ∧
    (pdfHandler none env).res.status = 400 ∧ (pdfHandler none env).trace = [] :=
  ⟨rfl, rfl, rfl, rfl⟩

/-- C7: When the upstream API answers 404 for the profile call, or for
the repositories call after a successful profile call, both routes
respond with status 404 and a body containing the requested username. -/
theorem absent_user_404_with_username (u : String) (env : ServerEnv)
    (h : env.gh.userApi = ApiResult.httpError 404 ∨
      ((∃ ud, env.gh.userApi = ApiResult.ok ud) ∧
        env.gh.reposApi = ApiResult.httpError 404)) :
    (previewHandler (some u) env).1.status = 404 ∧
    containsStr (previewHandler (some u) env).1.body u ∧
    (pdfHandler (some u) env).res.status = 404 ∧
    containsStr (pdfHandler (some u) env).res.body u := by
  have hcatch : ∀ pre, catchRes "User not found" u pre =
      { status := 404, body := ("GitHub user \"" ++ u) ++ "\" not found",
        contentType := none, contentDisposition := none } := by
    intro pre; simp [catchRes]
  have hmain : ∃ tr, buildTemplateData u env.gh = (Except.error GhError.userNotFound, tr) := by
    rcases h with h404 | ⟨⟨ud, hu⟩, hr⟩
    · exact ⟨[GhRequest.userReq u], by simp [buildTemplateData, h404, fetchGitHubData]⟩
    · exact ⟨[GhRequest.userReq u, GhRequest.reposReq u 100], by
        simp [buildTemplateData, hu, hr, fetchGitHubData]⟩
  obtain ⟨tr, hb⟩ := hmain
  refine ⟨?_, ?_, ?_, ?_⟩
  · simp [previewHandler, hb, GhError.message, hcatch]
  · simp [previewHandler, hb, GhError.message, hcatch]
    exact ⟨"GitHub user \"", "\" not found", rfl⟩
  · simp [pdfHandler, hb, GhError.message, hcatch]
  · simp [pdfHandler, hb, GhError.message, hcatch]
    exact ⟨"GitHub user \"", "\" not found", rfl⟩

theorem absent_user_404_with_username_witness :
    (previewHandler (some "ghost") serverEnv404).1.status = 404 ∧
    containsStr (previewHandler (some "ghost") serverEnv404).1.body "ghost" ∧
    (pdfHandler (some "ghost") serverEnv404).res.status = 404 ∧
    containsStr (pdfHandler (some "ghost") serverEnv404).res.body "ghost" :=
  absent_user_404_with_username "ghost" serverEnv404 (Or.inl rfl)

/-- C8: The star-count sort of the builder is stable: for every star
value, the entries carrying that value appear in the sorted list in
exactly the order the input list gave them. -/
theorem sort_by_stars_stable (l : List Repo) (s : Nat) :
    (sortByStars l).filter (fun x => x.stargazers_count == s) =
      l.filter (fun x => x.stargazers_count == s) := by
  induction l with
  | nil => rfl
  | cons x xs ih =>
    rw [sortByStars, filter_insertRepo]
    cases h : x.stargazers_count == s <;> simp [h, List.filter_cons, ih]

/-- C9: Every anchor element of the sanitized README HTML carries the
new-context, no-opener attribute pair: target is _blank and rel is
noopener noreferrer, whatever attributes the input markdown supplied;
the function returns either the empty string or the render of a forest
all of whose anchors satisfy that policy. -/
theorem readme_anchors_new_context_policy (env : ReadmeEnv) :
    anchorsOkF (sanitizeForest env.rawHtml) = true ∧
    (fetchUserReadmeHtml env = "" ∨
      fetchUserReadmeHtml env = renderForest (sanitizeForest env.rawHtml)) :=
  ⟨anchors_sanF env.rawHtml, fetchUserReadmeHtml_cases env⟩

/-- C10: On every successful build, the trace holds exactly one
repositories request, its URL carries per_page=100, and every entry of
the output repository list is derived from the list returned by that
single call, so repositories beyond the returned page are never
candidates for the top ten. -/
theorem single_repos_request_page_100 (u : String) (env : GhEnv)
    (d : TemplateData) (tr : List GhRequest)
    (h : buildTemplateData u env = (Except.ok d, tr)) :
    tr.filter GhRequest.isRepos = [GhRequest.reposReq u 100] ∧
    containsStr (GhRequest.url (GhRequest.reposReq u 100)) "per_page=100" ∧
    ∃ l, env.reposApi = ApiResult.ok l ∧
      ∀ x ∈ d.repos, ∃ s, s ∈ l ∧ x = mapRepo s := by
  cases hu : fetchGitHubData env.userApi with
  | error e => simp only [buildTemplateData, hu] at h; simp at h
  | ok ud =>
    cases hr : fetchGitHubData env.reposApi with
    | error e => simp only [buildTemplateData, hu, hr] at h; simp at h
    | ok rl =>
      simp only [buildTemplateData, hu, hr] at h
      rw [Prod.mk.injEq] at h
      obtain ⟨hd, htr⟩ := h
      rw [Except.ok.injEq] at hd
      subst htr
      subst hd
      refine ⟨rfl, ?_, ?_⟩
      · exact ⟨("https://api.github.com/users/" ++ u) ++ "/repos?", "&sort=stars", rfl⟩
      · exact ⟨rl, fetchGitHubData_ok env.reposApi rl hr,
          fun x hx => mem_topRepos rl x hx⟩

theorem single_repos_request_page_100_witness :
    ([GhRequest.userReq "alice", GhRequest.reposReq "alice" 100,
        GhRequest.readmeReq "alice"].filter GhRequest.isRepos =
      [GhRequest.reposReq "alice" 100]) ∧
    containsStr (GhRequest.url (GhRequest.reposReq "alice" 100)) "per_page=100" ∧
    ∃ l, ghEnvOk.reposApi = ApiResult.ok l ∧
      ∀ x ∈ dataAlice.repos, ∃ s, s ∈ l ∧ x = mapRepo s :=
  single_repos_request_page_100 "alice" ghEnvOk dataAlice
    [GhRequest.userReq "alice", GhRequest.reposReq "alice" 100,
      GhRequest.readmeReq "alice"] rfl

end GhPdf
